import Mathlib

/-!
Verification of the stronghold.rs communication crate
(`src/engine/communication`): a shallow embedding in Lean 4 of the
peer directory, the message protocol, the mailbox relay subsystem and
the two network-session front ends (`src/lib.rs` and
`src/network/mod.rs`), together with proofs of the specified
properties.

Conventions of the embedding:
* `PeerId` and `Multiaddr` are opaque identifiers, modelled as `Nat`.
* The libp2p swarm is modelled as a trace of emitted network actions
  plus a request-id counter; fallible environment steps (transport
  construction, listening, dialing, DHT bootstrap) are decided by an
  `Env` oracle.
* Rust methods taking `&mut self` become state-passing functions
  returning the new state together with an `Except QueryError` result;
  an error result leaves the returned state exactly as the Rust code
  leaves `self`.
-/

abbrev PeerId := Nat

abbrev Multiaddr := Nat

/-- Error type of the crate. The module `src/error.rs` is not under
`src/`; the constructors are those used by the sources in `src/`
(`QueryError::ConnectionError`, `QueryError::KademliaError`,
`QueryError::Mailbox`), matching the spec's error taxonomy. -/
inductive QueryError where
  | ConnectionError (msg : String)
  | KademliaError (msg : String)
  | Mailbox (msg : String)
deriving DecidableEq, Repr

/-- Record deposited at a mailbox: key, value and expiry in seconds
(spec section 3, `MailboxRecord`). -/
structure MailboxRecord where
  key : String
  value : String
  expires_sec : Nat
deriving DecidableEq, Repr

/-- Outcome payload of a `Response::Result` (spec section 6). -/
inductive MessageResult where
  | Success
  | Error (reason : String)
deriving DecidableEq, Repr

/-- Request message family (spec section 6):
Ping, Message(text), Publish(MailboxRecord). -/
inductive Request where
  | Ping
  | Message (text : String)
  | Publish (record : MailboxRecord)
deriving DecidableEq, Repr

/-- Response message family (spec section 6):
Pong, Message(text), Result(Success or Error(reason)). -/
inductive Response where
  | Pong
  | Message (text : String)
  | Result (result : MessageResult)
deriving DecidableEq, Repr

/-!
Message protocol codec. Modelled from the spec: the codec module
(`src/behaviour/protocol.rs`, the protobuf-backed `MessageCodec`) is
not under `src/`. Following section 4.3 of the spec it is a
deterministic, versionless binary framing of one `Request` or one
`Response` per substream, supporting zero-length payloads. The wire
alphabet is modelled as `Nat` symbols: a variant tag, then
length-prefixed text fields, then the expiry for `Publish`.
-/

/-- Length-prefixed encoding of a text field. -/
def encodeString (s : String) : List Nat :=
  s.data.length :: s.data.map Char.toNat

/-- Decoder for a length-prefixed text field; returns the decoded
string and the remaining input, or `none` when the input is too
short. -/
def decodeString : List Nat → Option (String × List Nat)
  | [] => none
  | n :: rest =>
    if n ≤ rest.length then
      some (String.mk ((rest.take n).map Char.ofNat), rest.drop n)
    else
      none

/-- Modelled from the spec: frame one `Request` on the wire. -/
def write_request : Request → List Nat
  | .Ping => [0]
  | .Message text => 1 :: encodeString text
  | .Publish record =>
    2 :: (encodeString record.key ++ encodeString record.value ++ [record.expires_sec])

/-- Modelled from the spec: decode one `Request` frame, returning the
message and the unconsumed suffix; `none` on malformed input. -/
def read_request : List Nat → Option (Request × List Nat)
  | 0 :: rest => some (.Ping, rest)
  | 1 :: rest =>
    (decodeString rest).map fun p => (.Message p.1, p.2)
  | 2 :: rest =>
    match decodeString rest with
    | none => none
    | some (key, r1) =>
      match decodeString r1 with
      | none => none
      | some (value, r2) =>
        match r2 with
        | [] => none
        | e :: r3 => some (.Publish ⟨key, value, e⟩, r3)
  | _ => none

/-- Modelled from the spec: frame one `Response` on the wire. -/
def write_response : Response → List Nat
  | .Pong => [0]
  | .Message text => 1 :: encodeString text
  | .Result .Success => [2, 0]
  | .Result (.Error reason) => 2 :: 1 :: encodeString reason

/-- Modelled from the spec: decode one `Response` frame, returning the
message and the unconsumed suffix; `none` on malformed input. -/
def read_response : List Nat → Option (Response × List Nat)
  | 0 :: rest => some (.Pong, rest)
  | 1 :: rest =>
    (decodeString rest).map fun p => (.Message p.1, p.2)
  | 2 :: 0 :: rest => some (.Result .Success, rest)
  | 2 :: 1 :: rest =>
    (decodeString rest).map fun p => (.Result (.Error p.1), p.2)
  | _ => none

theorem decodeString_encodeString (s : String) (rest : List Nat) :
    decodeString (encodeString s ++ rest) = some (s, rest) := by
  simp only [encodeString, decodeString, List.cons_append]
  rw [if_pos]
  · have htake : ((s.data.map Char.toNat ++ rest).take s.data.length).map Char.ofNat = s.data := by
      have hlen : s.data.length = (s.data.map Char.toNat).length := (List.length_map _ _).symm
      rw [hlen, List.take_left, List.map_map]
      have : (Char.ofNat ∘ Char.toNat) = id := by
        funext c
        exact Char.ofNat_toNat c
      rw [this, List.map_id]
    have hdrop : (s.data.map Char.toNat ++ rest).drop s.data.length = rest := by
      have hlen : s.data.length = (s.data.map Char.toNat).length := (List.length_map _ _).symm
      rw [hlen, List.drop_left]
    rw [htake, hdrop]
  · rw [List.length_append, List.length_map]
    exact Nat.le_add_right _ _

/-!
Mailbox relay state. Modelled from the spec: the module
`src/mailboxes.rs` (lib.rs front end) / `src/network/mailboxes.rs`
(network front end) is not under `src/`; only its callers are.
Following section 3 of the spec, `Mailboxes` is an ordered collection
of `Mailbox` entries in which entries can be marked as the default,
with the invariant that a non-empty collection has exactly one marked
entry; adding the first mailbox makes it the default automatically and
`set_default` fails if the target peer is not already known.
-/

/-- Known relay peer: peer identifier plus dialable address
(spec section 3, `Mailbox`). -/
structure Mailbox where
  peer_id : PeerId
  addr : Multiaddr
deriving DecidableEq, Repr

/-- Modelled from the spec: ordered collection of mailboxes, each
entry carrying its default mark. -/
structure Mailboxes where
  entries : List (Mailbox × Bool)
deriving DecidableEq, Repr

/-- Clear the default mark of every entry. -/
def clearMarks (l : List (Mailbox × Bool)) : List (Mailbox × Bool) :=
  l.map fun e => (e.1, false)

/-- Modelled from the spec: a fresh collection holding one mailbox,
which is the default. -/
def Mailboxes.new (mailbox : Mailbox) : Mailboxes :=
  ⟨[(mailbox, true)]⟩

/-- Modelled from the spec: append a mailbox; it becomes the default
when requested or when it is the first entry, otherwise the existing
default is kept. -/
def Mailboxes.add_mailbox (s : Mailboxes) (mailbox : Mailbox) (is_default : Bool) : Mailboxes :=
  if is_default || s.entries.isEmpty then
    ⟨clearMarks s.entries ++ [(mailbox, true)]⟩
  else
    ⟨s.entries ++ [(mailbox, false)]⟩

/-- Modelled from the spec: look up a registered mailbox by peer. -/
def Mailboxes.find_mailbox (s : Mailboxes) (peer_id : PeerId) : Option Mailbox :=
  (s.entries.find? fun e => e.1.peer_id == peer_id).map (·.1)

/-- Move the default mark to the first entry of the given peer,
clearing all other marks. -/
def markDefault : List (Mailbox × Bool) → PeerId → List (Mailbox × Bool)
  | [], _ => []
  | e :: rest, peer_id =>
    if e.1.peer_id == peer_id then
      (e.1, true) :: clearMarks rest
    else
      (e.1, false) :: markDefault rest peer_id

/-- Modelled from the spec: make a registered peer the default; fails
with a MailboxError when the peer is not a registered mailbox, leaving
the collection unchanged. -/
def Mailboxes.set_default (s : Mailboxes) (peer_id : PeerId) : Mailboxes × Except QueryError PeerId :=
  match s.find_mailbox peer_id with
  | some _ => (⟨markDefault s.entries peer_id⟩, .ok peer_id)
  | none => (s, .error (.Mailbox "Mailbox is not known"))

/-- Modelled from the spec: peer of the default mailbox; fails with a
MailboxError on an empty collection. -/
def Mailboxes.get_default (s : Mailboxes) : Except QueryError PeerId :=
  match s.entries.find? (·.2) with
  | some e => .ok e.1.peer_id
  | none => .error (.Mailbox "No known mailboxes")

/-- Number of entries marked as the default. -/
def Mailboxes.markedCount (s : Mailboxes) : Nat :=
  (s.entries.filter (·.2)).length

/-!
Swarm model: the libp2p swarm is embedded as the ordered trace of
network actions the session has issued, plus the request-id counter of
the request/response protocol. Fallible environment steps are decided
by an `Env` oracle.
-/

/-- Network action issued to the swarm, in issue order. -/
inductive NetAction where
  | listenOn (port : Nat)
  | dial (addr : Multiaddr)
  | kadAddAddress (peer : PeerId) (addr : Multiaddr)
  | kadBootstrap
  | sendRequest (peer : PeerId) (request : Request)
deriving DecidableEq, Repr

/-- Swarm state: emitted action trace and next request id. -/
structure Swarm where
  actions : List NetAction
  nextRequestId : Nat
deriving DecidableEq, Repr

/-- Environment oracle deciding the fallible transport steps. -/
structure Env where
  transportOk : Bool
  listenOk : Bool
  dialOk : Multiaddr → Bool
  bootstrapOk : Bool

/-- Source `Swarm::dial_addr` (fallible): on success the dial action
is recorded; on failure the swarm is unchanged and a ConnectionError
is returned. -/
def Swarm.dial_addr (env : Env) (sw : Swarm) (addr : Multiaddr) : Swarm × Except QueryError Unit :=
  if env.dialOk addr then
    ({ sw with actions := sw.actions ++ [.dial addr] }, .ok ())
  else
    (sw, .error (.ConnectionError "Could not dial addr"))

/-- Source `kad_add_address` (infallible): records the routing-info
registration. -/
def Swarm.kad_add_address (sw : Swarm) (peer_id : PeerId) (addr : Multiaddr) : Swarm :=
  { sw with actions := sw.actions ++ [.kadAddAddress peer_id addr] }

/-- Source `kad_bootstrap` (fallible): on success the bootstrap action
is recorded. -/
def Swarm.kad_bootstrap (env : Env) (sw : Swarm) : Swarm × Except QueryError Nat :=
  if env.bootstrapOk then
    ({ sw with actions := sw.actions ++ [.kadBootstrap] }, .ok 0)
  else
    (sw, .error (.KademliaError "Could not bootstrap"))

/-- Source `send_request`: enqueue the request and hand out the next
request id (send operations never fail synchronously). -/
def Swarm.send_request (sw : Swarm) (peer : PeerId) (request : Request) : Swarm × Nat :=
  ({ actions := sw.actions ++ [.sendRequest peer request], nextRequestId := sw.nextRequestId + 1 },
   sw.nextRequestId)

/-- Modelled from the spec: `swarm.send_record` (not under `src/`)
builds a `Request::Publish` from key, value and expiry — the expiry
defaulting to 9000 seconds — and sends it. -/
def Swarm.send_record (sw : Swarm) (peer : PeerId) (key value : String)
    (timeout_sec : Option Nat) : Swarm × Nat :=
  sw.send_request peer (.Publish ⟨key, value, timeout_sec.getD 9000⟩)

/-- Network session state shared by both front ends: local peer id,
swarm, and the optional mailbox collection. -/
structure P2PNetwork where
  peer_id : PeerId
  swarm : Swarm
  mailboxes : Option Mailboxes
deriving DecidableEq, Repr

namespace LibRs

/-!
Session front end of `src/lib.rs` (`P2PNetwork` over a `Codec`).
-/

/-- Source `P2PNetwork::new` (src/lib.rs lines 52-85): build the
transport, listen on the given port (default 16384), then, when a
bootstrap mailbox is given, dial it, register its address in the DHT
and bootstrap; dial or bootstrap failures are converted by `.ok()` /
`and_then` into an absent mailbox collection, not into an error. -/
def new (env : Env) (local_keys : PeerId) (port : Option Nat)
    (mailbox : Option (PeerId × Multiaddr)) : Except QueryError P2PNetwork :=
  if env.transportOk = false then
    .error (.ConnectionError "Could not build transport layer")
  else
    let peer_id := local_keys
    let p := port.getD 16384
    if 65535 < p then
      .error (.ConnectionError "Invalid Port")
    else if env.listenOk = false then
      .error (.ConnectionError "listen failed")
    else
      let sw : Swarm := { actions := [.listenOn p], nextRequestId := 1 }
      match mailbox with
      | none => .ok { peer_id := peer_id, swarm := sw, mailboxes := none }
      | some (mailbox_id, mailbox_addr) =>
        match Swarm.dial_addr env sw mailbox_addr with
        | (sw1, .ok _) =>
          let sw2 := sw1.kad_add_address mailbox_id mailbox_addr
          match Swarm.kad_bootstrap env sw2 with
          | (sw3, .ok _) =>
            .ok { peer_id := peer_id, swarm := sw3,
                  mailboxes := some (Mailboxes.new ⟨mailbox_id, mailbox_addr⟩) }
          | (sw3, .error _) =>
            .ok { peer_id := peer_id, swarm := sw3, mailboxes := none }
        | (sw1, .error _) =>
          .ok { peer_id := peer_id, swarm := sw1, mailboxes := none }

/-- Source `P2PNetwork::dial_remote` (src/lib.rs lines 91-94). -/
def dial_remote (net : P2PNetwork) (env : Env) (peer_addr : Multiaddr) :
    P2PNetwork × Except QueryError Unit :=
  match Swarm.dial_addr env net.swarm peer_addr with
  | (sw, .ok _) => ({ net with swarm := sw }, .ok ())
  | (sw, .error _) => ({ net with swarm := sw }, .error (.ConnectionError "Could not dial addr"))

/-- Source `P2PNetwork::add_mailbox` (src/lib.rs lines 96-106): dial
the mailbox address, then register the mailbox in the collection
(creating the collection when absent). -/
def add_mailbox (net : P2PNetwork) (env : Env) (mailbox_peer : PeerId)
    (mailbox_addr : Multiaddr) (is_default : Bool) : P2PNetwork × Except QueryError Unit :=
  match dial_remote net env mailbox_addr with
  | (net1, .error e) => (net1, .error e)
  | (net1, .ok _) =>
    let mailbox : Mailbox := ⟨mailbox_peer, mailbox_addr⟩
    let mbs :=
      match net1.mailboxes with
      | some mailboxes => mailboxes.add_mailbox mailbox is_default
      | none => Mailboxes.new mailbox
    ({ net1 with mailboxes := some mbs }, .ok ())

/-- Source `P2PNetwork::set_default_mailbox` (src/lib.rs lines
108-115): clone the mailbox collection, run `set_default` on the
clone and return its result; the mutated clone is dropped, so the
session state is returned unchanged. -/
def set_default_mailbox (net : P2PNetwork) (mailbox_peer : PeerId) :
    P2PNetwork × Except QueryError PeerId :=
  match net.mailboxes with
  | none => (net, .error (.Mailbox "No known mailboxes"))
  | some mailboxes => (net, (mailboxes.set_default mailbox_peer).2)

/-- Source `P2PNetwork::put_record_mailbox` (src/lib.rs lines
117-138): resolve the target mailbox peer (explicit peer must be a
registered mailbox, otherwise the default), then send the record. -/
def put_record_mailbox (net : P2PNetwork) (key value : String) (timeout_sec : Option Nat)
    (mailbox_peer_id : Option PeerId) : P2PNetwork × Except QueryError Nat :=
  match net.mailboxes with
  | none => (net, .error (.Mailbox "No known mailboxes"))
  | some mailboxes =>
    let peerR : Except QueryError PeerId :=
      match mailbox_peer_id with
      | some peer_id =>
        match mailboxes.find_mailbox peer_id with
        | some mailbox => .ok mailbox.peer_id
        | none => .error (.Mailbox "No know mailbox for peer")
      | none => mailboxes.get_default
    match peerR with
    | .error e => (net, .error e)
    | .ok peer =>
      let sr := net.swarm.send_record peer key value timeout_sec
      ({ net with swarm := sr.1 }, .ok sr.2)

end LibRs

namespace NetworkMod

/-!
Session front end of `src/network/mod.rs` (`P2PNetwork` over an
`InboundEventHandler`).
-/

/-- Source `P2PNetwork::new` (src/network/mod.rs lines 49-65): build
the transport and listen on the given port (default 0); no bootstrap
mailbox, the collection starts absent. -/
def new (env : Env) (local_keys : PeerId) (port : Option Nat) : Except QueryError P2PNetwork :=
  if env.transportOk = false then
    .error (.ConnectionError "Could not build transport layer")
  else
    let peer_id := local_keys
    let p := port.getD 0
    if 65535 < p then
      .error (.ConnectionError "Invalid Port")
    else if env.listenOk = false then
      .error (.ConnectionError "listen failed")
    else
      .ok { peer_id := peer_id,
            swarm := { actions := [.listenOn p], nextRequestId := 1 },
            mailboxes := none }

/-- Source `P2PNetwork::connect_remote` (src/network/mod.rs lines
71-78): register the peer address as DHT routing info, then
bootstrap; a bootstrap failure surfaces as a KademliaError. -/
def connect_remote (net : P2PNetwork) (env : Env) (peer_id : PeerId) (peer_addr : Multiaddr) :
    P2PNetwork × Except QueryError Unit :=
  let sw1 := net.swarm.kad_add_address peer_id peer_addr
  match Swarm.kad_bootstrap env sw1 with
  | (sw2, .ok _) => ({ net with swarm := sw2 }, .ok ())
  | (sw2, .error _) => ({ net with swarm := sw2 }, .error (.KademliaError "Could not bootstrap"))

/-- Source `P2PNetwork::dial_addr` (src/network/mod.rs lines 80-83). -/
def dial_addr (net : P2PNetwork) (env : Env) (peer_addr : Multiaddr) :
    P2PNetwork × Except QueryError Unit :=
  match Swarm.dial_addr env net.swarm peer_addr with
  | (sw, .ok _) => ({ net with swarm := sw }, .ok ())
  | (sw, .error _) => ({ net with swarm := sw }, .error (.ConnectionError "Could not dial addr"))

/-- Source `P2PNetwork::add_mailbox` (src/network/mod.rs lines
97-106): connect to the remote (DHT routing info plus bootstrap),
then register the mailbox in the collection; this version takes no
default flag and never dials. -/
def add_mailbox (net : P2PNetwork) (env : Env) (mailbox_peer : PeerId)
    (mailbox_addr : Multiaddr) : P2PNetwork × Except QueryError Unit :=
  match connect_remote net env mailbox_peer mailbox_addr with
  | (net1, .error e) => (net1, .error e)
  | (net1, .ok _) =>
    let mbs :=
      match net1.mailboxes with
      | some mailboxes => mailboxes.add_mailbox ⟨mailbox_peer, mailbox_addr⟩ false
      | none => Mailboxes.new ⟨mailbox_peer, mailbox_addr⟩
    ({ net1 with mailboxes := some mbs }, .ok ())

/-- Source `P2PNetwork::set_default_mailbox` (src/network/mod.rs
lines 108-115): clone the mailbox collection, run `set_default` on
the clone and return its result mapped to unit; the mutated clone is
dropped, so the session state is returned unchanged. -/
def set_default_mailbox (net : P2PNetwork) (mailbox_peer : PeerId) :
    P2PNetwork × Except QueryError Unit :=
  match net.mailboxes with
  | none => (net, .error (.Mailbox "No known mailboxes"))
  | some mailboxes => (net, ((mailboxes.set_default mailbox_peer).2).map fun _ => ())

/-- Source `P2PNetwork::put_record_mailbox` (src/network/mod.rs lines
117-136): resolve the target mailbox peer (explicit peer must be a
registered mailbox, otherwise the default), then send
`Request::Publish(record)`. -/
def put_record_mailbox (net : P2PNetwork) (record : MailboxRecord)
    (mailbox_peer_id : Option PeerId) : P2PNetwork × Except QueryError Nat :=
  match net.mailboxes with
  | none => (net, .error (.Mailbox "No known mailboxes"))
  | some mailboxes =>
    let peerR : Except QueryError PeerId :=
      match mailbox_peer_id with
      | some peer_id =>
        match mailboxes.find_mailbox peer_id with
        | some mailbox => .ok mailbox.peer_id
        | none => .error (.Mailbox "No know mailbox for peer")
      | none => mailboxes.get_default
    match peerR with
    | .error e => (net, .error e)
    | .ok peer =>
      let sr := net.swarm.send_request peer (.Publish record)
      ({ net with swarm := sr.1 }, .ok sr.2)

end NetworkMod

/-!
Peer directory of `src/behaviour/mod.rs`: `P2PNetworkBehaviour` keeps
`peers : BTreeMap<PeerId, Multiaddr>`, modelled as an association
list with key-replacing insertion.
-/

/-- BTreeMap insertion on the association-list model: replace the
entry of an existing key, otherwise append. -/
def insertPeer : List (PeerId × Multiaddr) → PeerId → Multiaddr → List (PeerId × Multiaddr)
  | [], peer_id, addr => [(peer_id, addr)]
  | (q, b) :: rest, peer_id, addr =>
    if q == peer_id then (peer_id, addr) :: rest
    else (q, b) :: insertPeer rest peer_id addr

/-- BTreeMap lookup on the association-list model. -/
def lookupPeer : List (PeerId × Multiaddr) → PeerId → Option Multiaddr
  | [], _ => none
  | (q, b) :: rest, peer_id => if q == peer_id then some b else lookupPeer rest peer_id

/-- State of `P2PNetworkBehaviour` relevant to the peer directory
(src/behaviour/mod.rs line 75). -/
structure P2PNetworkBehaviour where
  peers : List (PeerId × Multiaddr)
deriving DecidableEq, Repr

/-- Source `P2PNetworkBehaviour::add_peer` (src/behaviour/mod.rs
lines 177-179): `self.peers.insert(peer_id, addr)`. -/
def P2PNetworkBehaviour.add_peer (s : P2PNetworkBehaviour) (peer_id : PeerId)
    (addr : Multiaddr) : P2PNetworkBehaviour :=
  ⟨insertPeer s.peers peer_id addr⟩

/-- Source `P2PNetworkBehaviour::get_peer_addr` (src/behaviour/mod.rs
lines 181-183): `self.peers.get(peer_id)`. -/
def P2PNetworkBehaviour.get_peer_addr (s : P2PNetworkBehaviour) (peer_id : PeerId) :
    Option Multiaddr :=
  lookupPeer s.peers peer_id

/-- Local-discovery (mDNS) event, as matched by the source. -/
inductive MdnsEvent where
  | Discovered (list : List (PeerId × Multiaddr))
  | Expired (list : List (PeerId × Multiaddr))
deriving DecidableEq, Repr

/-- Source `NetworkBehaviourEventProcess<MdnsEvent>::inject_event`
(src/behaviour/mod.rs lines 190-201): on `Discovered`, register every
contained pair via `add_peer`; every other event is ignored. -/
def P2PNetworkBehaviour.inject_event (s : P2PNetworkBehaviour) :
    MdnsEvent → P2PNetworkBehaviour
  | .Discovered list => list.foldl (fun st p => st.add_peer p.1 p.2) s
  | .Expired _ => s

/-- Operation on the peer directory: a manual registration or an
inbound discovery event. -/
inductive DirOp where
  | addPeer (peer_id : PeerId) (addr : Multiaddr)
  | mdns (event : MdnsEvent)
deriving DecidableEq, Repr

/-- Apply one directory operation. -/
def applyDirOp (s : P2PNetworkBehaviour) : DirOp → P2PNetworkBehaviour
  | .addPeer peer_id addr => s.add_peer peer_id addr
  | .mdns event => s.inject_event event

/-- C2: decoding an encoded message returns the original message for
every Request variant (Ping, Message, Publish) and every Response
variant (Pong, Message, Result Success / Result Error), including the
zero-payload Ping and Pong variants. -/
theorem read_write_message_roundtrip :
    (∀ req : Request, read_request (write_request req) = some (req, [])) ∧
    (∀ resp : Response, read_response (write_response resp) = some (resp, [])) := by
  constructor
  · intro req
    cases req with
    | Ping => rfl
    | Message text =>
      have h := decodeString_encodeString text []
      rw [List.append_nil] at h
      simp [read_request, write_request, h]
    | Publish record =>
      have hk := decodeString_encodeString record.key
        (encodeString record.value ++ [record.expires_sec])
      have hv := decodeString_encodeString record.value [record.expires_sec]
      simp [read_request, write_request, hk, hv]
  · intro resp
    cases resp with
    | Pong => rfl
    | Message text =>
      have h := decodeString_encodeString text []
      rw [List.append_nil] at h
      simp [read_response, write_response, h]
    | Result result =>
      cases result with
      | Success => rfl
      | Error reason =>
        have h := decodeString_encodeString reason []
        rw [List.append_nil] at h
        simp [read_response, write_response, h]

theorem lookupPeer_insertPeer (l : List (PeerId × Multiaddr)) (p : PeerId) (a : Multiaddr)
    (q : PeerId) :
    lookupPeer (insertPeer l p a) q = if p == q then some a else lookupPeer l q := by
  induction l with
  | nil => simp [insertPeer, lookupPeer]
  | cons e rest ih =>
    obtain ⟨r, b⟩ := e
    by_cases hrp : r = p
    · subst hrp
      simp only [insertPeer, beq_self_eq_true, if_true]
      by_cases hrq : r = q
      · subst hrq
        simp [lookupPeer]
      · simp [lookupPeer, hrq, Ne.symm hrq]
    · simp only [insertPeer, beq_eq_false_iff_ne.mpr hrp, if_false]
      by_cases hrq : r = q
      · subst hrq
        have hpq : ¬p == r := by
          simp [Ne.symm hrp]
        simp [lookupPeer, hpq]
      · simp [lookupPeer, hrq, ih]

/-- Spec-side definition (section 4.1 / section 8): the most recently
registered address for an identifier is the last matching pair of the
call sequence. -/
def mostRecentAddr (calls : List (PeerId × Multiaddr)) (peer_id : PeerId) : Option Multiaddr :=
  (calls.reverse.find? fun c => c.1 == peer_id).map (·.2)

/-- Fold a sequence of `add_peer` calls over the empty directory. -/
def applyAddPeerCalls (calls : List (PeerId × Multiaddr)) : P2PNetworkBehaviour :=
  calls.foldl (fun s c => s.add_peer c.1 c.2) ⟨[]⟩

theorem mostRecentAddr_append_singleton (calls : List (PeerId × Multiaddr))
    (c : PeerId × Multiaddr) (q : PeerId) :
    mostRecentAddr (calls ++ [c]) q =
      if c.1 == q then some c.2 else mostRecentAddr calls q := by
  simp only [mostRecentAddr, List.reverse_append, List.reverse_singleton, List.singleton_append,
    List.find?]
  by_cases h : c.1 = q
  · simp [h]
  · simp [beq_eq_false_iff_ne.mpr h, h]

/-- C5: after any sequence of `add_peer` calls starting from the
empty directory, `get_peer_addr` returns the most recently registered
address for an identifier, and `none` for an identifier never
registered. -/
theorem get_peer_addr_last_write_wins (calls : List (PeerId × Multiaddr)) (peer_id : PeerId) :
    (applyAddPeerCalls calls).get_peer_addr peer_id = mostRecentAddr calls peer_id := by
  induction calls using List.reverseRecOn with
  | nil => rfl
  | append_singleton cs c ih =>
    have happ : applyAddPeerCalls (cs ++ [c])
        = (applyAddPeerCalls cs).add_peer c.1 c.2 := by
      simp [applyAddPeerCalls, List.foldl_append]
    rw [happ, mostRecentAddr_append_singleton]
    show lookupPeer (insertPeer (applyAddPeerCalls cs).peers c.1 c.2) peer_id = _
    rw [lookupPeer_insertPeer]
    by_cases h : c.1 = peer_id
    · simp [h]
    · simp [beq_eq_false_iff_ne.mpr h, h]
      exact ih

theorem isSome_lookupPeer_insertPeer (l : List (PeerId × Multiaddr)) (p : PeerId)
    (a : Multiaddr) (q : PeerId) (h : (lookupPeer l q).isSome = true) :
    (lookupPeer (insertPeer l p a) q).isSome = true := by
  rw [lookupPeer_insertPeer]
  by_cases hpq : p = q
  · simp [hpq]
  · simpa [beq_eq_false_iff_ne.mpr hpq] using h

theorem isSome_get_peer_addr_foldl (list : List (PeerId × Multiaddr))
    (s : P2PNetworkBehaviour) (q : PeerId) (h : (s.get_peer_addr q).isSome = true) :
    ((list.foldl (fun st p => st.add_peer p.1 p.2) s).get_peer_addr q).isSome = true := by
  induction list generalizing s with
  | nil => exact h
  | cons c rest ih =>
    exact ih (s.add_peer c.1 c.2) (isSome_lookupPeer_insertPeer s.peers c.1 c.2 q h)

/-- C9: the peer directory is purely additive — a Discovered event
registers each contained pair via `add_peer`, and once
`get_peer_addr` is `some` for an identifier it stays `some` after any
further directory operation (manual registration or discovery event,
none of which removes entries). -/
theorem peer_directory_additive :
    (∀ (list : List (PeerId × Multiaddr)) (s : P2PNetworkBehaviour),
       s.inject_event (.Discovered list) = list.foldl (fun st p => st.add_peer p.1 p.2) s) ∧
    (∀ (s : P2PNetworkBehaviour) (peer_id : PeerId) (op : DirOp),
       (s.get_peer_addr peer_id).isSome = true →
       ((applyDirOp s op).get_peer_addr peer_id).isSome = true) := by
  constructor
  · intro list s
    rfl
  · intro s peer_id op h
    cases op with
    | addPeer p a => exact isSome_lookupPeer_insertPeer s.peers p a peer_id h
    | mdns event =>
      cases event with
      | Discovered list => exact isSome_get_peer_addr_foldl list s peer_id h
      | Expired list => exact h

/-- Witness for `peer_directory_additive` at a concrete directory: the
entry for peer 5 survives an Expired event and a Discovered event for
another peer. -/
theorem peer_directory_additive_witness :
    ((P2PNetworkBehaviour.get_peer_addr ⟨[(5, 50)]⟩ 5).isSome = true) ∧
    ((applyDirOp ⟨[(5, 50)]⟩ (.mdns (.Expired [(5, 50)]))).get_peer_addr 5).isSome = true ∧
    ((applyDirOp ⟨[(5, 50)]⟩ (.mdns (.Discovered [(7, 70)]))).get_peer_addr 5).isSome = true :=
  ⟨by decide,
   peer_directory_additive.2 ⟨[(5, 50)]⟩ 5 (.mdns (.Expired [(5, 50)])) (by decide),
   peer_directory_additive.2 ⟨[(5, 50)]⟩ 5 (.mdns (.Discovered [(7, 70)])) (by decide)⟩

/-- C8: `get_default` on an empty mailbox collection fails with a
MailboxError, and `set_default` for a peer that is not a registered
mailbox fails with a MailboxError while returning the collection —
default mark included — unchanged. -/
theorem get_default_set_default_errors :
    (Mailboxes.get_default ⟨[]⟩ = .error (.Mailbox "No known mailboxes")) ∧
    (∀ (s : Mailboxes) (p : PeerId), s.find_mailbox p = none →
       s.set_default p = (s, .error (.Mailbox "Mailbox is not known"))) := by
  constructor
  · rfl
  · intro s p h
    unfold Mailboxes.set_default
    rw [h]

/-- Witness for `get_default_set_default_errors`: peer 2 is not
registered in the one-mailbox collection of peer 1. -/
theorem get_default_set_default_errors_witness :
    (Mailboxes.new ⟨1, 10⟩).set_default 2
      = (Mailboxes.new ⟨1, 10⟩, .error (.Mailbox "Mailbox is not known")) :=
  get_default_set_default_errors.2 (Mailboxes.new ⟨1, 10⟩) 2 (by decide)

/-- C3: `put_record_mailbox` fails synchronously with a MailboxError
and leaves the session unchanged (so no request reaches the network)
when the session has no mailbox collection, and likewise when an
explicit mailbox peer is supplied that is not a registered mailbox;
shown for both session front ends. -/
theorem put_record_mailbox_fails_fast :
    (∀ (net : P2PNetwork) (key value : String) (ts : Option Nat) (pid : Option PeerId),
       net.mailboxes = none →
       LibRs.put_record_mailbox net key value ts pid
         = (net, .error (.Mailbox "No known mailboxes"))) ∧
    (∀ (net : P2PNetwork) (mbs : Mailboxes) (key value : String) (ts : Option Nat) (p : PeerId),
       net.mailboxes = some mbs → mbs.find_mailbox p = none →
       LibRs.put_record_mailbox net key value ts (some p)
         = (net, .error (.Mailbox "No know mailbox for peer"))) ∧
    (∀ (net : P2PNetwork) (record : MailboxRecord) (pid : Option PeerId),
       net.mailboxes = none →
       NetworkMod.put_record_mailbox net record pid
         = (net, .error (.Mailbox "No known mailboxes"))) ∧
    (∀ (net : P2PNetwork) (mbs : Mailboxes) (record : MailboxRecord) (p : PeerId),
       net.mailboxes = some mbs → mbs.find_mailbox p = none →
       NetworkMod.put_record_mailbox net record (some p)
         = (net, .error (.Mailbox "No know mailbox for peer"))) := by
  refine ⟨?_, ?_, ?_, ?_⟩
  · intro net key value ts pid h
    unfold LibRs.put_record_mailbox
    rw [h]
  · intro net mbs key value ts p h hf
    unfold LibRs.put_record_mailbox
    rw [h]
    simp only [hf]
  · intro net record pid h
    unfold NetworkMod.put_record_mailbox
    rw [h]
  · intro net mbs record p h hf
    unfold NetworkMod.put_record_mailbox
    rw [h]
    simp only [hf]

/-- Session with no mailbox collection and an empty action trace,
used as a concrete starting state. -/
def netE : P2PNetwork :=
  { peer_id := 0, swarm := { actions := [], nextRequestId := 1 }, mailboxes := none }

/-- Environment in which every fallible step succeeds. -/
def envT : Env :=
  { transportOk := true, listenOk := true, dialOk := fun _ => true, bootstrapOk := true }

/-- Witness for `put_record_mailbox_fails_fast`: a fresh session has
no mailboxes, and a session knowing only mailbox peer 1 rejects an
explicit deposit to peer 2. -/
theorem put_record_mailbox_fails_fast_witness :
    (LibRs.put_record_mailbox netE "foo" "bar" none none
      = (netE, .error (.Mailbox "No known mailboxes"))) ∧
    (LibRs.put_record_mailbox { netE with mailboxes := some (Mailboxes.new ⟨1, 10⟩) }
        "foo" "bar" none (some 2)
      = ({ netE with mailboxes := some (Mailboxes.new ⟨1, 10⟩) },
         .error (.Mailbox "No know mailbox for peer"))) ∧
    (NetworkMod.put_record_mailbox netE ⟨"foo", "bar", 9000⟩ none
      = (netE, .error (.Mailbox "No known mailboxes"))) :=
  ⟨put_record_mailbox_fails_fast.1 netE "foo" "bar" none none rfl,
   put_record_mailbox_fails_fast.2.1 _ (Mailboxes.new ⟨1, 10⟩) "foo" "bar" none 2 rfl (by decide),
   put_record_mailbox_fails_fast.2.2.1 netE ⟨"foo", "bar", 9000⟩ none rfl⟩

/-- C10: `add_mailbox` is atomic on failure — when the dial step
(lib.rs front end) or the connect step (network front end) fails, the
returned error leaves the mailbox collection, its default included,
exactly as before the call; for the lib.rs front end the whole
session state is unchanged. -/
theorem add_mailbox_atomic_on_failure :
    (∀ (net : P2PNetwork) (env : Env) (p : PeerId) (a : Multiaddr) (fl : Bool),
       env.dialOk a = false →
       LibRs.add_mailbox net env p a fl
         = (net, .error (.ConnectionError "Could not dial addr"))) ∧
    (∀ (net : P2PNetwork) (env : Env) (p : PeerId) (a : Multiaddr),
       env.bootstrapOk = false →
       (NetworkMod.add_mailbox net env p a).1.mailboxes = net.mailboxes ∧
       (NetworkMod.add_mailbox net env p a).2
         = .error (.KademliaError "Could not bootstrap")) := by
  constructor
  · intro net env p a fl h
    simp [LibRs.add_mailbox, LibRs.dial_remote, Swarm.dial_addr, h]
  · intro net env p a h
    constructor <;>
      simp [NetworkMod.add_mailbox, NetworkMod.connect_remote, Swarm.kad_bootstrap, h]

/-- Environment in which dialing and bootstrapping always fail. -/
def envF : Env :=
  { transportOk := true, listenOk := true, dialOk := fun _ => false, bootstrapOk := false }

/-- Witness for `add_mailbox_atomic_on_failure` at a concrete failing
environment and session. -/
theorem add_mailbox_atomic_on_failure_witness :
    (LibRs.add_mailbox netE envF 1 10 true
      = (netE, .error (.ConnectionError "Could not dial addr"))) ∧
    ((NetworkMod.add_mailbox netE envF 1 10).1.mailboxes = netE.mailboxes ∧
     (NetworkMod.add_mailbox netE envF 1 10).2
       = .error (.KademliaError "Could not bootstrap")) :=
  ⟨add_mailbox_atomic_on_failure.1 netE envF 1 10 true rfl,
   add_mailbox_atomic_on_failure.2 netE envF 1 10 rfl⟩

/-- Session whose mailbox collection holds mailbox peer 1 (the
default) and mailbox peer 2, with an empty action trace. -/
def netTwoMailboxes : P2PNetwork :=
  { peer_id := 0, swarm := { actions := [], nextRequestId := 1 },
    mailboxes := some ((Mailboxes.new ⟨1, 10⟩).add_mailbox ⟨2, 20⟩ false) }

/-- C1: `set_default_mailbox(2)` on `netTwoMailboxes` returns success,
yet the session state is returned unchanged — the mutated clone of the
mailbox collection is dropped — so a subsequent `put_record_mailbox`
with no explicit mailbox peer still sends the record to the old
default, peer 1, not to peer 2; the same holds for the network front
end. -/
theorem set_default_mailbox_discards_update :
    ((LibRs.set_default_mailbox netTwoMailboxes 2).2 = .ok 2 ∧
     (LibRs.set_default_mailbox netTwoMailboxes 2).1 = netTwoMailboxes ∧
     (LibRs.put_record_mailbox (LibRs.set_default_mailbox netTwoMailboxes 2).1
        "foo" "bar" none none).1.swarm.actions
       = [.sendRequest 1 (.Publish ⟨"foo", "bar", 9000⟩)]) ∧
    ((NetworkMod.set_default_mailbox netTwoMailboxes 2).2 = .ok () ∧
     (NetworkMod.set_default_mailbox netTwoMailboxes 2).1 = netTwoMailboxes) := by
  refine ⟨⟨rfl, rfl, ?_⟩, rfl, rfl⟩
  decide

/-- Counterexample to C6: a successful `add_mailbox` of the lib.rs
front end — the variant whose signature carries `is_default` — emits
only the dial action: no `kad_add_address` and no DHT bootstrap
appear in its trace. -/
theorem add_mailbox_no_dht_action :
    (LibRs.add_mailbox netE envT 1 10 true).2 = .ok () ∧
    (LibRs.add_mailbox netE envT 1 10 true).1.swarm.actions = [.dial 10] ∧
    NetAction.kadAddAddress 1 10 ∉ (LibRs.add_mailbox netE envT 1 10 true).1.swarm.actions ∧
    NetAction.kadBootstrap ∉ (LibRs.add_mailbox netE envT 1 10 true).1.swarm.actions := by
  refine ⟨rfl, rfl, ?_, ?_⟩ <;> decide

theorem mem_map_fst_add_mailbox (s : Mailboxes) (mb : Mailbox) (fl : Bool) :
    mb ∈ (s.add_mailbox mb fl).entries.map (·.1) := by
  unfold Mailboxes.add_mailbox
  split <;> simp [clearMarks]

/-- C6 as amended: on success, the lib.rs `add_mailbox(peer, addr,
is_default)` dials the address and registers the mailbox but performs
no DHT action, while the network front end's `add_mailbox(peer,
addr)` registers the peer/address pair as DHT routing info and
triggers a bootstrap — without dialing — and registers the mailbox. -/
theorem add_mailbox_actions :
    (∀ (net : P2PNetwork) (env : Env) (p : PeerId) (a : Multiaddr) (fl : Bool),
       (LibRs.add_mailbox net env p a fl).2 = .ok () →
       (LibRs.add_mailbox net env p a fl).1.swarm.actions = net.swarm.actions ++ [.dial a] ∧
       ∃ m, (LibRs.add_mailbox net env p a fl).1.mailboxes = some m ∧
         (⟨p, a⟩ : Mailbox) ∈ m.entries.map (·.1)) ∧
    (∀ (net : P2PNetwork) (env : Env) (p : PeerId) (a : Multiaddr),
       (NetworkMod.add_mailbox net env p a).2 = .ok () →
       (NetworkMod.add_mailbox net env p a).1.swarm.actions
         = net.swarm.actions ++ [.kadAddAddress p a, .kadBootstrap] ∧
       ∃ m, (NetworkMod.add_mailbox net env p a).1.mailboxes = some m ∧
         (⟨p, a⟩ : Mailbox) ∈ m.entries.map (·.1)) := by
  constructor
  · intro net env p a fl h
    by_cases hd : env.dialOk a = true
    · cases hm : net.mailboxes with
      | none =>
        refine ⟨?_, Mailboxes.new ⟨p, a⟩, ?_, ?_⟩ <;>
          simp [LibRs.add_mailbox, LibRs.dial_remote, Swarm.dial_addr, hd, hm, Mailboxes.new]
      | some mbs =>
        refine ⟨?_, mbs.add_mailbox ⟨p, a⟩ fl, ?_, mem_map_fst_add_mailbox mbs ⟨p, a⟩ fl⟩ <;>
          simp [LibRs.add_mailbox, LibRs.dial_remote, Swarm.dial_addr, hd, hm]
    · exfalso
      rw [Bool.not_eq_true] at hd
      simp [LibRs.add_mailbox, LibRs.dial_remote, Swarm.dial_addr, hd] at h
  · intro net env p a h
    by_cases hb : env.bootstrapOk = true
    · cases hm : net.mailboxes with
      | none =>
        refine ⟨?_, Mailboxes.new ⟨p, a⟩, ?_, ?_⟩ <;>
          simp [NetworkMod.add_mailbox, NetworkMod.connect_remote, Swarm.kad_bootstrap,
            Swarm.kad_add_address, hb, hm, Mailboxes.new]
      | some mbs =>
        refine ⟨?_, mbs.add_mailbox ⟨p, a⟩ false, ?_, mem_map_fst_add_mailbox mbs ⟨p, a⟩ false⟩ <;>
          simp [NetworkMod.add_mailbox, NetworkMod.connect_remote, Swarm.kad_bootstrap,
            Swarm.kad_add_address, hb, hm]
    · exfalso
      rw [Bool.not_eq_true] at hb
      simp [NetworkMod.add_mailbox, NetworkMod.connect_remote, Swarm.kad_bootstrap, hb] at h

/-- Witness for `add_mailbox_actions` at the fresh session in the
all-success environment. -/
theorem add_mailbox_actions_witness :
    ((LibRs.add_mailbox netE envT 1 10 true).1.swarm.actions
       = netE.swarm.actions ++ [.dial 10] ∧
     ∃ m, (LibRs.add_mailbox netE envT 1 10 true).1.mailboxes = some m ∧
       (⟨1, 10⟩ : Mailbox) ∈ m.entries.map (·.1)) ∧
    ((NetworkMod.add_mailbox netE envT 1 10).1.swarm.actions
       = netE.swarm.actions ++ [.kadAddAddress 1 10, .kadBootstrap] ∧
     ∃ m, (NetworkMod.add_mailbox netE envT 1 10).1.mailboxes = some m ∧
       (⟨1, 10⟩ : Mailbox) ∈ m.entries.map (·.1)) :=
  ⟨add_mailbox_actions.1 netE envT 1 10 true rfl,
   add_mailbox_actions.2 netE envT 1 10 rfl⟩

/-- Environment in which transport and listening succeed but every
dial fails. -/
def envDialFail : Env :=
  { transportOk := true, listenOk := true, dialOk := fun _ => false, bootstrapOk := true }

/-- Counterexample to C7: constructing a session with a bootstrap
mailbox whose dial fails does not return the ConnectionError — the
construction succeeds silently, with no mailbox collection. -/
theorem new_swallows_dial_failure :
    LibRs.new envDialFail 0 none (some (1, 10))
      = .ok { peer_id := 0, swarm := { actions := [.listenOn 16384], nextRequestId := 1 },
              mailboxes := none } := by
  rfl

/-- C7 as amended: during lib.rs session construction, transport
failure is surfaced as a ConnectionError, but a failure to dial the
bootstrap mailbox or to bootstrap the DHT is swallowed — construction
returns success with no mailbox collection configured. -/
theorem new_error_surface :
    (∀ (env : Env) (keys : PeerId) (port : Option Nat) (mid : PeerId) (maddr : Multiaddr),
       env.transportOk = true → env.listenOk = true → port.getD 16384 ≤ 65535 →
       (env.dialOk maddr = false ∨ env.bootstrapOk = false) →
       ∃ net, LibRs.new env keys port (some (mid, maddr)) = .ok net ∧ net.mailboxes = none) ∧
    (∀ (env : Env) (keys : PeerId) (port : Option Nat) (mb : Option (PeerId × Multiaddr)),
       env.transportOk = false →
       LibRs.new env keys port mb
         = .error (.ConnectionError "Could not build transport layer")) := by
  constructor
  · intro env keys port mid maddr ht hl hp hfail
    have hple : ¬65535 < port.getD 16384 := Nat.not_lt.mpr hp
    cases hd : env.dialOk maddr with
    | false =>
      refine ⟨{ peer_id := keys,
                swarm := { actions := [.listenOn (port.getD 16384)], nextRequestId := 1 },
                mailboxes := none }, ?_, rfl⟩
      simp [LibRs.new, ht, hl, hple, Swarm.dial_addr, hd]
    | true =>
      have hb : env.bootstrapOk = false := by
        rcases hfail with h | h
        · rw [hd] at h
          exact absurd h (by simp)
        · exact h
      refine ⟨{ peer_id := keys,
                swarm := { actions := [.listenOn (port.getD 16384), .dial maddr,
                                       .kadAddAddress mid maddr],
                           nextRequestId := 1 },
                mailboxes := none }, ?_, rfl⟩
      simp [LibRs.new, ht, hl, hple, Swarm.dial_addr, hd, Swarm.kad_bootstrap, hb,
        Swarm.kad_add_address]
  · intro env keys port mb ht
    simp [LibRs.new, ht]

/-- Witness for `new_error_surface`: the dial-failing environment and
an environment without transport. -/
theorem new_error_surface_witness :
    (∃ net, LibRs.new envDialFail 0 none (some (1, 10)) = .ok net ∧ net.mailboxes = none) ∧
    (LibRs.new { transportOk := false, listenOk := true, dialOk := fun _ => true,
                 bootstrapOk := true } 0 none none
       = .error (.ConnectionError "Could not build transport layer")) :=
  ⟨new_error_surface.1 envDialFail 0 none 1 10 rfl rfl (by decide) (Or.inl rfl),
   new_error_surface.2 _ 0 none none rfl⟩

theorem filter_clearMarks (l : List (Mailbox × Bool)) :
    (clearMarks l).filter (·.2) = [] := by
  induction l with
  | nil => rfl
  | cons e rest ih =>
    rw [clearMarks] at ih ⊢
    simp [List.filter, ih]

theorem markedCount_add_mailbox (s : Mailboxes) (mb : Mailbox) (fl : Bool) :
    (s.add_mailbox mb fl).markedCount
      = if fl || s.entries.isEmpty then 1 else s.markedCount := by
  unfold Mailboxes.add_mailbox Mailboxes.markedCount
  split <;> rename_i h <;> simp [h, List.filter_append, filter_clearMarks, List.filter]

theorem entries_ne_nil_add_mailbox (s : Mailboxes) (mb : Mailbox) (fl : Bool) :
    (s.add_mailbox mb fl).entries ≠ [] := by
  unfold Mailboxes.add_mailbox
  split <;> simp

/-- Invariant of the session's mailbox collection: when present and
non-empty, exactly one entry carries the default mark. -/
def mailboxInv (net : P2PNetwork) : Prop :=
  match net.mailboxes with
  | none => True
  | some m => m.markedCount = 1 ∧ m.entries ≠ []

theorem mailboxInv_add_mailbox (net : P2PNetwork) (env : Env) (p : PeerId) (a : Multiaddr)
    (fl : Bool) (h : mailboxInv net) :
    mailboxInv (LibRs.add_mailbox net env p a fl).1 := by
  by_cases hd : env.dialOk a = true
  · cases hm : net.mailboxes with
    | none =>
      simp [LibRs.add_mailbox, LibRs.dial_remote, Swarm.dial_addr, hd, hm, mailboxInv,
        Mailboxes.new, Mailboxes.markedCount, List.filter]
    | some mbs =>
      have hinv : mbs.markedCount = 1 ∧ mbs.entries ≠ [] := by
        simpa [mailboxInv, hm] using h
      simp only [LibRs.add_mailbox, LibRs.dial_remote, Swarm.dial_addr, hd, if_true, hm,
        mailboxInv]
      refine ⟨?_, entries_ne_nil_add_mailbox mbs ⟨p, a⟩ fl⟩
      rw [markedCount_add_mailbox]
      split
      · rfl
      · exact hinv.1
  · rw [Bool.not_eq_true] at hd
    simpa [LibRs.add_mailbox, LibRs.dial_remote, Swarm.dial_addr, hd, mailboxInv] using h

/-- Fold a sequence of lib.rs `add_mailbox(peer, addr, is_default)`
calls over a session, keeping the state of each call. -/
def applyAddMailboxCalls (env : Env) (net : P2PNetwork)
    (calls : List (PeerId × Multiaddr × Bool)) : P2PNetwork :=
  calls.foldl (fun n c => (LibRs.add_mailbox n env c.1 c.2.1 c.2.2).1) net

theorem mailboxInv_applyAddMailboxCalls (env : Env) (net : P2PNetwork)
    (calls : List (PeerId × Multiaddr × Bool)) (h : mailboxInv net) :
    mailboxInv (applyAddMailboxCalls env net calls) := by
  induction calls generalizing net with
  | nil => exact h
  | cons c rest ih =>
    exact ih _ (mailboxInv_add_mailbox net env c.1 c.2.1 c.2.2 h)

/-- C4: after any sequence of `add_mailbox` calls on a session that
starts with no mailboxes, a present mailbox collection is non-empty
and has exactly one entry marked as the default; and the first
mailbox ever added is the initial default — a successful first add
installs exactly the one-mailbox collection whose default is that
mailbox. -/
theorem add_mailbox_default_unique :
    (∀ (env : Env) (net : P2PNetwork) (calls : List (PeerId × Multiaddr × Bool)) (m : Mailboxes),
       net.mailboxes = none →
       (applyAddMailboxCalls env net calls).mailboxes = some m →
       m.markedCount = 1 ∧ m.entries ≠ []) ∧
    (∀ (net : P2PNetwork) (env : Env) (p : PeerId) (a : Multiaddr) (fl : Bool),
       net.mailboxes = none →
       (LibRs.add_mailbox net env p a fl).2 = .ok () →
       (LibRs.add_mailbox net env p a fl).1.mailboxes = some (Mailboxes.new ⟨p, a⟩) ∧
       (Mailboxes.new ⟨p, a⟩).get_default = .ok p) := by
  constructor
  · intro env net calls m hnone hsome
    have h0 : mailboxInv net := by
      simp [mailboxInv, hnone]
    have h1 := mailboxInv_applyAddMailboxCalls env net calls h0
    simpa [mailboxInv, hsome] using h1
  · intro net env p a fl hnone hok
    by_cases hd : env.dialOk a = true
    · constructor
      · simp [LibRs.add_mailbox, LibRs.dial_remote, Swarm.dial_addr, hd, hnone]
      · rfl
    · exfalso
      rw [Bool.not_eq_true] at hd
      simp [LibRs.add_mailbox, LibRs.dial_remote, Swarm.dial_addr, hd] at hok

/-- Witness for `add_mailbox_default_unique`: two adds from the fresh
session, the second marked default. -/
theorem add_mailbox_default_unique_witness :
    ((⟨[(⟨1, 10⟩, false), (⟨2, 20⟩, true)]⟩ : Mailboxes).markedCount = 1 ∧
     (⟨[(⟨1, 10⟩, false), (⟨2, 20⟩, true)]⟩ : Mailboxes).entries ≠ []) ∧
    ((LibRs.add_mailbox netE envT 1 10 false).1.mailboxes = some (Mailboxes.new ⟨1, 10⟩) ∧
     (Mailboxes.new ⟨1, 10⟩).get_default = .ok 1) :=
  ⟨add_mailbox_default_unique.1 envT netE [(1, 10, false), (2, 20, true)]
      ⟨[(⟨1, 10⟩, false), (⟨2, 20⟩, true)]⟩ rfl (by decide),
   add_mailbox_default_unique.2 netE envT 1 10 false rfl rfl⟩
